import Mathlib

/-!
Verification of the pymeasure instrument drivers (Pendulum CNT91, Rohde&Schwarz
HMP4040, Tektronix AFG3100 edit memory, Teledyne T3DS01204) against their
natural-language specification.  Each driver method is shallowly embedded as a
Lean function; the SCPI connection is modelled as a pending list of device
replies plus an event log of the commands written, queries sent and sleeps
performed.
-/

deriving instance DecidableEq for Except

namespace Pymeasure

/-- Python-level exceptional outcomes relevant to the modelled drivers.
`blocked` marks a read from the transport for which no device reply is
available: the real call would block on the transport read. -/
inductive Exc where
  | valueError (msg : String)
  | typeError (msg : String)
  | assertionError
  | keyError (key : String)
  | zeroDivisionError
  | blocked
  deriving Repr, DecidableEq

/-- Observable events on the instrument connection: a query (command sent and
raw reply received), a plain command write, or a fixed-interval sleep (in
seconds). -/
inductive Event where
  | query (cmd reply : String)
  | write (cmd : String)
  | sleep (seconds : ℚ)
  deriving Repr, DecidableEq

/-- Python `s.rstrip("\n")`: remove all trailing newline characters,
as applied by `CNT91.ask` to every reply. -/
def rstripNewline (s : String) : String :=
  String.mk ((s.data.reverse.dropWhile (fun c => c = '\n')).reverse)

/-- Surrounding whitespace removed from a character list. -/
def stripWS (cs : List Char) : List Char :=
  ((cs.dropWhile Char.isWhitespace).reverse.dropWhile Char.isWhitespace).reverse

/-- The value of a non-empty all-digit character list, `none` otherwise. -/
def digitsVal (cs : List Char) : Option Nat :=
  if cs = [] then none
  else if cs.all Char.isDigit then
    some (cs.foldl (fun acc c => 10 * acc + (c.toNat - 48)) 0)
  else none

/-- Python `int(s)`: parse an optionally signed decimal integer after
stripping surrounding whitespace; raises `ValueError` on a malformed
literal. -/
def pyInt (s : String) : Except Exc Int :=
  match stripWS s.data with
  | '-' :: rest =>
      match digitsVal rest with
      | some n => .ok (-(n : Int))
      | none => .error (.valueError ("invalid literal for int: " ++ s))
  | '+' :: rest =>
      match digitsVal rest with
      | some n => .ok (n : Int)
      | none => .error (.valueError ("invalid literal for int: " ++ s))
  | cs =>
      match digitsVal cs with
      | some n => .ok (n : Int)
      | none => .error (.valueError ("invalid literal for int: " ++ s))

/-! ## Pendulum CNT91 (src/pymeasure/instruments/pendulum/cnt91.py) -/

/-- State of a `CNT91` driver object together with its transport: the lazily
created `_batch_size` attribute, the pending device replies (consumed one per
query, in order) and the log of connection events so far. -/
structure CNT91State where
  batchSizeCache : Option Int
  replies : List String
  events : List Event
  deriving Repr, DecidableEq

namespace CNT91

/-- `CNT91.ask`: send a query and return the reply with trailing newlines
stripped (the driver overrides `ask` to apply `rstrip("\n")`). -/
def ask (cmd : String) (s : CNT91State) : Except Exc String × CNT91State :=
  match s.replies with
  | [] => (.error .blocked, s)
  | r :: rest =>
      (.ok (rstripNewline r),
       { s with replies := rest, events := s.events ++ [.query cmd r] })

/-- `CNT91.write`: send a command, no reply expected. -/
def sendCmd (cmd : String) (s : CNT91State) : CNT91State :=
  { s with events := s.events ++ [.write cmd] }

/-- `CNT91.operation_complete`: `self.ask("*OPC?") == "1"`. -/
def operationComplete (s : CNT91State) : Except Exc Bool × CNT91State :=
  match ask "*OPC?" s with
  | (.ok r, s1) => (.ok (decide (r = "1")), s1)
  | (.error e, s1) => (.error e, s1)

/-- `CNT91.batch_size`: if the `_batch_size` attribute does not exist yet,
query `FORM:SMAX?`, parse the reply with `int` and store it; afterwards return
the stored value without any communication. -/
def batchSize (s : CNT91State) : Except Exc Int × CNT91State :=
  match s.batchSizeCache with
  | some v => (.ok v, s)
  | none =>
      match ask "FORM:SMAX?" s with
      | (.ok r, s1) =>
          match pyInt r with
          | .ok n => (.ok n, { s1 with batchSizeCache := some n })
          | .error e => (.error e, s1)
      | (.error e, s1) => (.error e, s1)

/-- `CNT91.TRIGGER_SOURCES`. -/
def triggerSources (k : String) : Option String :=
  if k = "A" then some "EXT1"
  else if k = "B" then some "EXT2"
  else if k = "REAR" then some "EXT4"
  else none

/-- `CNT91.CHANNELS`. -/
def channels (k : String) : Option Nat :=
  if k = "A" then some 1
  else if k = "B" then some 2
  else if k = "C" then some 3
  else if k = "REAR" then some 4
  else if k = "INTREF" then some 6
  else none

/-- `CNT91.arm_trigger_source`: assert the source is known, then write
`ARM:SOUR <src>; ARM:SLOP POS`. -/
def armTriggerSource (triggerSource : String) (s : CNT91State) :
    Except Exc Unit × CNT91State :=
  match triggerSources triggerSource with
  | none => (.error .assertionError, s)
  | some ts => (.ok (), sendCmd ("ARM:SOUR " ++ ts ++ "; ARM:SLOP POS") s)

/-- `CNT91.set_measurement_time`, with `fmt` rendering the Python float into
the command string. -/
def setMeasurementTime (fmt : ℚ → String) (t : ℚ) (s : CNT91State) : CNT91State :=
  sendCmd (":ACQ:APER " ++ fmt t) s

/-- `CNT91.configure_array_measurement`: assert `n_samples <= MAX_N_SAMPLES`,
look the channel up in `CHANNELS` (a missing key raises `KeyError`), then write
`:CONF:ARR:FREQ <n>,(@<ch>)`. -/
def configureArrayMeasurement (nSamples : Nat) (channel : String)
    (s : CNT91State) : Except Exc Unit × CNT91State :=
  if nSamples ≤ 100000 then
    match channels channel with
    | none => (.error (.keyError channel), s)
    | some ch =>
        (.ok (),
         sendCmd (":CONF:ARR:FREQ " ++ toString nSamples ++ ",(@" ++ toString ch ++ ")") s)
  else (.error .assertionError, s)

/-- Modelled from the spec: `format` is declared via `Instrument.control`
(which is not under src/), described by the spec as a named accessor where
"reading an attribute sends a query string and parses the ASCII reply".
`buffer_time_series` evaluates `self.format("ASCII")`: it first reads the
property, sending the query `FORM?`, and then calls the parsed reply.  The
parsed reply is a string (or float), never a callable, so the call raises
`TypeError` whenever the query itself succeeds. -/
def formatCallAscii (s : CNT91State) : Except Exc Unit × CNT91State :=
  match ask "FORM?" s with
  | (.ok _, s1) => (.error (.typeError "str object is not callable"), s1)
  | (.error e, s1) => (.error e, s1)

/-- The polling loop `while not self.operation_complete: sleep(0.01)` at the
end of `CNT91.buffer_time_series`: each iteration queries `*OPC?`; if the
stripped reply is `"1"` the loop exits, otherwise it sleeps 0.01 s and polls
again.  Exhausting the reply list means the loop is still running (blocked on
the next reply). -/
def pollLoop (cache : Option Int) (events : List Event) :
    List String → Except Exc Unit × CNT91State
  | [] => (.error .blocked, ⟨cache, [], events⟩)
  | r :: rest =>
      if rstripNewline r = "1" then
        (.ok (), ⟨cache, rest, events ++ [.query "*OPC?" r]⟩)
      else
        pollLoop cache (events ++ [.query "*OPC?" r, .sleep (1/100)]) rest

/-- `CNT91.buffer_time_series`: assert the sample rate bound, compute the
measurement time `1 / sample_rate`, clear the instrument (`*CLS`), evaluate
`self.format("ASCII")`, configure the array measurement, write
`:INIT:CONT OFF`, set the measurement time, optionally arm the trigger, start
with `:INIT` and poll `*OPC?` until complete.  The method returns `None` and
contains no buffer read-out. -/
def bufferTimeSeries (fmt : ℚ → String) (channel : String) (nSamples : Nat)
    (sampleRate : ℚ) (triggerSource : Option String) (s : CNT91State) :
    Except Exc Unit × CNT91State :=
  if sampleRate ≤ 100000 then
    if sampleRate = 0 then (.error .zeroDivisionError, s)
    else
      let measurementTime := 1 / sampleRate
      let s := sendCmd "*CLS" s
      match formatCallAscii s with
      | (.error e, s1) => (.error e, s1)
      | (.ok _, s1) =>
          match configureArrayMeasurement nSamples channel s1 with
          | (.error e, s2) => (.error e, s2)
          | (.ok _, s2) =>
              let s3 := sendCmd ":INIT:CONT OFF" s2
              let s4 := setMeasurementTime fmt measurementTime s3
              let armed :=
                match triggerSource with
                | none => (Except.ok (), s4)
                | some ts => armTriggerSource ts s4
              match armed with
              | (.error e, s5) => (.error e, s5)
              | (.ok _, s5) =>
                  let s6 := sendCmd ":INIT" s5
                  pollLoop s6.batchSizeCache s6.events s6.replies
  else (.error .assertionError, s)

/-- Python `s.split(",")` on the character list: split at every comma; the
empty string yields one empty piece, like Python. -/
def splitComma : List Char → List (List Char)
  | [] => [[]]
  | c :: rest =>
      if c = ',' then [] :: splitComma rest
      else
        match splitComma rest with
        | [] => [[c]]
        | g :: gs => (c :: g) :: gs

/-- One fetched batch of `CNT91.read_buffer`: the reply to `:FETC:ARR? MAX`
(with trailing newlines stripped by `ask`) split on `","`, each piece parsed
by Python `float`, abstracted as `pf` (the claims assume every piece is a
decimal number, on which `float` is total). -/
def fetchParse (pf : String → ℚ) (reply : String) : List ℚ :=
  (splitComma (rstripNewline reply).data).map (fun cs => pf (String.mk cs))

/-- `CNT91.read_buffer` with the batch size `B` already cached: repeatedly
fetch `:FETC:ARR? MAX` (consuming one pending reply per iteration), yield all
parsed values of the batch, and stop after the first batch with fewer than `B`
values.  Returns the yielded values in order together with the number of
batches fetched; `none` when the pending replies are exhausted with every
fetched batch still of full size (the generator would block on the next
fetch). -/
def readBuffer (pf : String → ℚ) (B : Int) : List String → Option (List ℚ × Nat)
  | [] => none
  | r :: rest =>
      let data := fetchParse pf r
      if (data.length : Int) < B then some (data, 1)
      else
        match readBuffer pf B rest with
        | none => none
        | some (vals, n) => some (data ++ vals, n + 1)

end CNT91

/-! ## Rohde&Schwarz HMP4040 (src/pymeasure/instruments/rohdeschwarz/hmp.py) -/

/-- The elements of a sequence at indices 2, 5, 8, ... — Python
`sequence[2::3]`, the dwell times of the voltage/current/time triplets. -/
def dwellTimes : List ℚ → List ℚ
  | _ :: _ :: c :: rest => c :: dwellTimes rest
  | _ => []

/-- `process_sequence`: reject a sequence whose length is not a multiple of 3,
or one of whose dwell times `t` (elements `[2::3]`) satisfies `t > 10 or
t < 0.06`; otherwise join the `str` renderings of all values with commas.
`repr` renders a Python float as `str` does. -/
def processSequence (repr : ℚ → String) (sequence : List ℚ) : Except Exc String :=
  if ¬ sequence.length % 3 = 0 then
    .error (.valueError "Sequence must contain multiple of 3 values.")
  else if (dwellTimes sequence).any (fun t => 10 < t ∨ t < 6/100) then
    .error (.valueError "Dwell times must be between 0.06 and 10 s.")
  else
    .ok (String.intercalate "," (sequence.map repr))

namespace HMP4040

/-- Modelled from the spec: the `sequence` attribute is declared via
`Instrument.setting` (not under src/), which per the spec "formats and sends a
command string" when written: it applies `set_process` (`process_sequence`) to
the value and writes `"ARB:DATA %s"` formatted with the result.  An exception
raised by `process_sequence` propagates before anything is written. -/
def setSequence (repr : ℚ → String) (sequence : List ℚ) :
    Except Exc Unit × List Event :=
  match processSequence repr sequence with
  | .error e => (.error e, [])
  | .ok str => (.ok (), [.write ("ARB:DATA " ++ str)])

/-- State of an HMP4040 power supply as far as channel selection is concerned:
the currently selected channel (`INST:NSEL`), the output-select flag of each of
the four channels (index 0 holds channel 1), and the connection event log. -/
structure HMPState where
  sel : Int
  active : List Bool
  events : List Event
  deriving Repr, DecidableEq

/-- Reading `selected_channel`: query `INST:NSEL?`; the instrument replies
with the currently selected channel number, parsed by `get_process`
(`int`). -/
def getSelectedChannel (s : HMPState) : Int × HMPState :=
  (s.sel, { s with events := s.events ++ [.query "INST:NSEL?" (toString s.sel)] })

/-- Writing `selected_channel`: `strict_discrete_set` against `[1, 2, 3, 4]`,
then write `INST:NSEL <c>`; the instrument makes `c` the selected channel.
(Modelled from the spec: `Instrument.control` writing "formats and sends a
command string" after the validator check.) -/
def setSelectedChannel (c : Int) (s : HMPState) : Except Exc Unit × HMPState :=
  if c = 1 ∨ c = 2 ∨ c = 3 ∨ c = 4 then
    (.ok (),
     { s with sel := c, events := s.events ++ [.write ("INST:NSEL " ++ toString c)] })
  else (.error (.valueError "Value is not in the discrete set"), s)

/-- Writing `selected_channel_active`: the boolean is mapped through
`{True: 1, False: 0}` and `OUTPUT:SEL <0|1>` is written; the instrument
applies the flag to the currently selected channel. -/
def setSelectedChannelActive (b : Bool) (s : HMPState) : HMPState :=
  { s with
    active := s.active.set (s.sel - 1).toNat b,
    events := s.events ++ [.write ("OUTPUT:SEL " ++ (if b then "1" else "0"))] }

/-- `HMP4040.activate_channel`: save the selected channel, select `channel`,
set its output-select flag to `True`, restore the saved channel. -/
def activateChannel (channel : Int) (s : HMPState) : Except Exc Unit × HMPState :=
  let p := getSelectedChannel s
  match setSelectedChannel channel p.2 with
  | (.error e, s1) => (.error e, s1)
  | (.ok _, s1) =>
      let s2 := setSelectedChannelActive true s1
      setSelectedChannel p.1 s2

/-- `HMP4040.deactivate_channel`: save the selected channel, select `channel`,
set its output-select flag to `False`, restore the saved channel. -/
def deactivateChannel (channel : Int) (s : HMPState) : Except Exc Unit × HMPState :=
  let p := getSelectedChannel s
  match setSelectedChannel channel p.2 with
  | (.error e, s1) => (.error e, s1)
  | (.ok _, s1) =>
      let s2 := setSelectedChannelActive false s1
      setSelectedChannel p.1 s2

end HMP4040

/-! ## Tektronix AFG3100 edit memory (src/pymeasure/instruments/tektronix/afg3100.py) -/

namespace EditMemory

/-- The big-endian byte pair of an unsigned 16-bit integer, as produced for
each value by a binary transfer with `datatype="H"`, `is_big_endian=True`. -/
def u16be (v : Nat) : List Nat := [v / 256 % 256, v % 256]

/-- `EditMemory.shape` setter: raise `ValueError` when the length of the shape
is below 2 or above 131073; otherwise transfer the values after the command
header `DATA:DATA EMEM,` as unsigned 16-bit big-endian integers (modelled from
the spec: "binary waveform upload ... using fixed-width unsigned integers" via
`write_binary_values(..., datatype="H", is_big_endian=True)`).  Returns the
command header together with the payload bytes. -/
def setShape (shape : List Nat) : Except Exc (String × List Nat) :=
  if shape.length < 2 ∨ shape.length > 131073 then
    .error (.valueError "Length of the shape must be between 2 and 131073.")
  else
    .ok ("DATA:DATA EMEM,", (shape.map u16be).flatten)

/-- Minimum of a list, Python `min` (error on an empty sequence). -/
def listMin : List ℚ → Option ℚ
  | [] => none
  | a :: rest =>
      match listMin rest with
      | none => some a
      | some m => some (min a m)

/-- Maximum of a list, Python `max` (error on an empty sequence). -/
def listMax : List ℚ → Option ℚ
  | [] => none
  | a :: rest =>
      match listMax rest with
      | none => some a
      | some m => some (max a m)

/-- `EditMemory.normalize_shape`: subtract the minimum, divide by the maximum
of the shifted values, multiply by the 14-bit resolution 16383 and truncate to
int (`astype(np.int)`; the values are non-negative, so truncation is the
floor).  A shape whose maximum equals its minimum makes the divisor zero;
numpy arithmetic is modelled as exact rational arithmetic. -/
def normalizeShape (shape : List ℚ) : Except Exc (List ℤ) :=
  match listMin shape with
  | none => .error (.valueError "min() arg is an empty sequence")
  | some mn =>
      let shifted := shape.map (fun x => x - mn)
      match listMax shifted with
      | none => .error (.valueError "max() arg is an empty sequence")
      | some m =>
          if m = 0 then .error .zeroDivisionError
          else .ok (shifted.map (fun x => Int.floor (x / m * 16383)))

end EditMemory

/-! ## Teledyne T3DS01204 (src/pymeasure/instruments/teledyne/t3ds01204.py) -/

/-- A Python value that is either an int or a string, as accepted for the
`source` argument of `select_trigger`. -/
inductive PyVal where
  | int (n : Int)
  | str (s : String)
  deriving Repr, DecidableEq

/-- Modelled from the spec: the validators module is not under src/; the spec
describes `strict_discrete_set` as a "simple one-line value check" that "fails
immediately": it returns the value when it belongs to the allowed set and
raises `ValueError` otherwise. -/
def strictDiscreteSet {α : Type} [DecidableEq α] (value : α) (values : List α) :
    Except Exc α :=
  if value ∈ values then .ok value else
    .error (.valueError "Value is not in the discrete set")

/-- Python truthiness of an optional number: `None` and `0` are falsy. -/
def truthyOptNum : Option ℚ → Bool
  | none => false
  | some q => decide (q ≠ 0)

namespace T3DS01204

/-- The validation stage of `T3DS01204.select_trigger`: `trigger_type` against
its discrete set; `source` against the EDGE set or the channel-only set; an
int source formatted as `C<n>`; `hold_type` against the set selected by the
`elif` chain on `trigger_type` (for `trigger_type == "SLEW"` no branch
applies — the chain tests `hold_type == "SLEW"`, not `trigger_type` — so the
hold type passes through unvalidated).  Returns the validated trigger type,
formatted source and hold type. -/
def validateTrigger (source : PyVal) (triggerType holdType : String) :
    Except Exc (String × String × String) :=
  match strictDiscreteSet triggerType
      ["EDGE", "SLEW", "GLIT", "INTV", "RUNT", "DROP"] with
  | .error e => .error e
  | .ok tt =>
      let srcValues :=
        if tt = "EDGE" then
          [PyVal.int 1, .int 2, .int 3, .int 4, .str "LINE", .str "EX", .str "EX5"]
        else [PyVal.int 1, .int 2, .int 3, .int 4]
      match strictDiscreteSet source srcValues with
      | .error e => .error e
      | .ok src =>
          let srcStr :=
            match src with
            | .int n => "C" ++ toString n
            | .str s => s
          let htChecked :=
            if tt = "EDGE" then strictDiscreteSet holdType ["TI", "OFF"]
            else if tt = "DROP" then strictDiscreteSet holdType ["TI"]
            else if tt = "GLIT" ∨ tt = "RUNT" then
              strictDiscreteSet holdType ["PS", "PL", "P1", "P2"]
            else if tt = "INTV" ∨ holdType = "SLEW" then
              strictDiscreteSet holdType ["IS", "IL", "I1", "I2"]
            else .ok holdType
          match htChecked with
          | .error e => .error e
          | .ok ht => .ok (tt, srcStr, ht)

/-- `T3DS01204.select_trigger`: validate the arguments, build the command
`TRSE  <tt>,SR,<src>,HT,<ht>`; when the hold type is not `"OFF"`, a falsy
`hold_value` raises `ValueError`, otherwise `,HV,<hold_value>` is appended and,
when `hold_value2` is truthy, also `,HV2,<hold_value2>`; finally the single
command is written.  `repr` renders a number as Python f-string interpolation
does.  Returns the outcome together with the commands written. -/
def selectTrigger (repr : ℚ → String) (source : PyVal) (triggerType holdType : String)
    (holdValue holdValue2 : Option ℚ) : Except Exc Unit × List Event :=
  match validateTrigger source triggerType holdType with
  | .error e => (.error e, [])
  | .ok (tt, srcStr, ht) =>
      let cmd := "TRSE  " ++ tt ++ ",SR," ++ srcStr ++ ",HT," ++ ht
      if ht = "OFF" then (.ok (), [.write cmd])
      else if truthyOptNum holdValue = false then
        (.error (.valueError
          "Hold_value must be specified when hold_type is not 'OFF'."), [])
      else
        let cmd := cmd ++ ",HV," ++
          (match holdValue with | some hv => repr hv | none => "None")
        let cmd :=
          match holdValue2 with
          | some hv2 => if hv2 ≠ 0 then cmd ++ ",HV2," ++ repr hv2 else cmd
          | none => cmd
        (.ok (), [.write cmd])

end T3DS01204

/-! ## Theorems -/

/-- Claim C2: for every sequence of device replies to `:FETC:ARR? MAX`,
`CNT91.read_buffer` yields exactly the concatenation, in order, of the parsed
float values of the fetched batches up to and including the first batch with
fewer than `batch_size` values, and fetches no further batch after that one
(the number of fetches is the position of that first short batch). -/
theorem CNT91.readBuffer_concat (pf : String → ℚ) (B : Int)
    (pre : List String) (r : String) (rest : List String)
    (hpre : ∀ x ∈ pre, B ≤ ((CNT91.fetchParse pf x).length : Int))
    (hshort : ((CNT91.fetchParse pf r).length : Int) < B) :
    CNT91.readBuffer pf B (pre ++ r :: rest) =
      some (((pre ++ [r]).map (CNT91.fetchParse pf)).flatten, pre.length + 1) := by
  induction pre with
  | nil => simp [CNT91.readBuffer, hshort]
  | cons a pre ih =>
      have ha : ¬ ((CNT91.fetchParse pf a).length : Int) < B :=
        not_lt.mpr (hpre a (by simp))
      have ih1 := ih (fun x hx => hpre x (by simp [hx]))
      simp only [List.cons_append, CNT91.readBuffer]
      simp [ha]
      rw [ih1]
      simp

/-- Claim C2 witness. -/
theorem CNT91.readBuffer_concat_witness :
    CNT91.readBuffer (fun s => (s.length : ℚ)) 3 (["1,2,3"] ++ "4,5" :: []) =
      some (((["1,2,3"] ++ ["4,5"]).map (CNT91.fetchParse (fun s => (s.length : ℚ)))).flatten,
            ["1,2,3"].length + 1) :=
  CNT91.readBuffer_concat (fun s => (s.length : ℚ)) 3 ["1,2,3"] "4,5" []
    (by decide) (by decide)

/-- Claim C3: `CNT91.read_buffer` terminates exactly when some batch in the
reply stream has fewer than `batch_size` values (the loop reaches and fetches
the first such batch and stops there); with every batch of full size the
generator never finishes (it blocks on the next fetch once the replies run
out). -/
theorem CNT91.readBuffer_terminates_iff (pf : String → ℚ) (B : Int)
    (replies : List String) :
    (CNT91.readBuffer pf B replies).isSome ↔
      ∃ r ∈ replies, ((CNT91.fetchParse pf r).length : Int) < B := by
  induction replies with
  | nil => simp [CNT91.readBuffer]
  | cons a rest ih =>
      by_cases h : ((CNT91.fetchParse pf a).length : Int) < B
      · simp [CNT91.readBuffer, h]
      · simp only [CNT91.readBuffer, if_neg h]
        rw [show (∃ r ∈ a :: rest, ((CNT91.fetchParse pf r).length : Int) < B) ↔
              (∃ r ∈ rest, ((CNT91.fetchParse pf r).length : Int) < B) by simp [h]]
        rw [← ih]
        cases CNT91.readBuffer pf B rest with
        | none => simp
        | some p => simp

/-! ### Cache-preservation helper lemmas for the CNT91 driver -/

theorem CNT91.cache_ask (cmd : String) (s : CNT91State) :
    (CNT91.ask cmd s).2.batchSizeCache = s.batchSizeCache := by
  unfold CNT91.ask
  cases s.replies <;> simp

theorem CNT91.cache_sendCmd (cmd : String) (s : CNT91State) :
    (CNT91.sendCmd cmd s).batchSizeCache = s.batchSizeCache := rfl

theorem CNT91.cache_operationComplete (s : CNT91State) :
    (CNT91.operationComplete s).2.batchSizeCache = s.batchSizeCache := by
  have h := CNT91.cache_ask "*OPC?" s
  unfold CNT91.operationComplete
  rcases hask : CNT91.ask "*OPC?" s with ⟨res, s1⟩
  rw [hask] at h
  cases res <;> simpa using h

theorem CNT91.cache_armTriggerSource (ts : String) (s : CNT91State) :
    (CNT91.armTriggerSource ts s).2.batchSizeCache = s.batchSizeCache := by
  unfold CNT91.armTriggerSource
  cases CNT91.triggerSources ts <;> simp [CNT91.sendCmd]

theorem CNT91.cache_setMeasurementTime (fmt : ℚ → String) (t : ℚ) (s : CNT91State) :
    (CNT91.setMeasurementTime fmt t s).batchSizeCache = s.batchSizeCache := rfl

theorem CNT91.cache_configureArrayMeasurement (n : Nat) (ch : String) (s : CNT91State) :
    (CNT91.configureArrayMeasurement n ch s).2.batchSizeCache = s.batchSizeCache := by
  unfold CNT91.configureArrayMeasurement
  split
  · cases CNT91.channels ch <;> simp [CNT91.sendCmd]
  · simp

theorem CNT91.cache_formatCallAscii (s : CNT91State) :
    (CNT91.formatCallAscii s).2.batchSizeCache = s.batchSizeCache := by
  have h := CNT91.cache_ask "FORM?" s
  unfold CNT91.formatCallAscii
  rcases hask : CNT91.ask "FORM?" s with ⟨res, s1⟩
  rw [hask] at h
  cases res <;> simpa using h

theorem CNT91.formatCallAscii_isError (s : CNT91State) :
    ∃ e, (CNT91.formatCallAscii s).1 = .error e := by
  unfold CNT91.formatCallAscii
  rcases hask : CNT91.ask "FORM?" s with ⟨res, s1⟩
  cases res <;> simp

theorem CNT91.cache_pollLoop (c : Option Int) (e : List Event) (rs : List String) :
    (CNT91.pollLoop c e rs).2.batchSizeCache = c := by
  induction rs generalizing e with
  | nil => simp [CNT91.pollLoop]
  | cons r rest ih =>
      by_cases h : rstripNewline r = "1" <;> simp [CNT91.pollLoop, h, ih]

theorem CNT91.formatCallAscii_eq (s0 : CNT91State) :
    CNT91.formatCallAscii s0 =
      match s0.replies with
      | [] => (.error .blocked, s0)
      | r :: rest =>
          (.error (.typeError "str object is not callable"),
           { s0 with replies := rest, events := s0.events ++ [.query "FORM?" r] }) := by
  unfold CNT91.formatCallAscii CNT91.ask
  cases s0.replies <;> simp

theorem CNT91.cache_bufferTimeSeries (fmt : ℚ → String) (ch : String) (n : Nat)
    (sr : ℚ) (tsrc : Option String) (s : CNT91State) :
    (CNT91.bufferTimeSeries fmt ch n sr tsrc s).2.batchSizeCache = s.batchSizeCache := by
  unfold CNT91.bufferTimeSeries
  split
  · split
    · simp
    · simp only [CNT91.formatCallAscii_eq]
      cases h : (CNT91.sendCmd "*CLS" s).replies <;>
        simp_all [CNT91.sendCmd]
  · simp

/-- Claim C5: the first read of `batch_size` with no cached value sends exactly
one `FORM:SMAX?` query and stores the parsed integer reply; every later read
returns the stored value without any communication and without changing the
state; and no other operation of the driver ever modifies the stored value
(they all leave `_batch_size` exactly as it was). -/
theorem CNT91.batchSize_lazy_cache_spec :
    (∀ (s : CNT91State) (r : String) (rest : List String) (n : Int),
       s.batchSizeCache = none → s.replies = r :: rest →
       pyInt (rstripNewline r) = .ok n →
       CNT91.batchSize s =
         (.ok n, { s with batchSizeCache := some n, replies := rest, events := s.events ++ [.query "FORM:SMAX?" r] }))
    ∧ (∀ (s : CNT91State) (v : Int), s.batchSizeCache = some v →
         CNT91.batchSize s = (.ok v, s))
    ∧ (∀ cmd s, (CNT91.ask cmd s).2.batchSizeCache = s.batchSizeCache)
    ∧ (∀ cmd s, (CNT91.sendCmd cmd s).batchSizeCache = s.batchSizeCache)
    ∧ (∀ s, (CNT91.operationComplete s).2.batchSizeCache = s.batchSizeCache)
    ∧ (∀ ts s, (CNT91.armTriggerSource ts s).2.batchSizeCache = s.batchSizeCache)
    ∧ (∀ fmt t s, (CNT91.setMeasurementTime fmt t s).batchSizeCache = s.batchSizeCache)
    ∧ (∀ n ch s, (CNT91.configureArrayMeasurement n ch s).2.batchSizeCache = s.batchSizeCache)
    ∧ (∀ s, (CNT91.formatCallAscii s).2.batchSizeCache = s.batchSizeCache)
    ∧ (∀ c e rs, (CNT91.pollLoop c e rs).2.batchSizeCache = c)
    ∧ (∀ fmt ch n sr tsrc s,
         (CNT91.bufferTimeSeries fmt ch n sr tsrc s).2.batchSizeCache = s.batchSizeCache) := by
  refine ⟨?_, ?_, CNT91.cache_ask, CNT91.cache_sendCmd, CNT91.cache_operationComplete,
    CNT91.cache_armTriggerSource, CNT91.cache_setMeasurementTime,
    CNT91.cache_configureArrayMeasurement, CNT91.cache_formatCallAscii,
    CNT91.cache_pollLoop, CNT91.cache_bufferTimeSeries⟩
  · intro s r rest n h1 h2 h3
    unfold CNT91.batchSize CNT91.ask
    rw [h1, h2]
    simp [h3]
  · intro s v h
    unfold CNT91.batchSize
    rw [h]

/-- Claim C5 witness. -/
theorem CNT91.batchSize_lazy_cache_witness :
    CNT91.batchSize ⟨none, ["10\n"], []⟩ =
      (.ok 10, { (⟨none, ["10\n"], []⟩ : CNT91State) with batchSizeCache := some 10, replies := [], events := [] ++ [.query "FORM:SMAX?" "10\n"] }) ∧
    CNT91.batchSize ⟨some 10, [], [.query "FORM:SMAX?" "10\n"]⟩ =
      (.ok 10, ⟨some 10, [], [.query "FORM:SMAX?" "10\n"]⟩) :=
  ⟨CNT91.batchSize_lazy_cache_spec.1 ⟨none, ["10\n"], []⟩ "10\n" [] 10 rfl rfl (by decide),
   CNT91.batchSize_lazy_cache_spec.2.1 ⟨some 10, [], [.query "FORM:SMAX?" "10\n"]⟩ 10 rfl⟩

/-- Claim C6: in the polling loop after `:INIT`, every iteration whose `*OPC?`
reply (trailing newlines stripped) is not `"1"` sleeps 0.01 s and polls again,
and the loop exits successfully exactly on the first reply equal to `"1"`,
leaving the later replies unconsumed; with no such reply the loop never
returns. -/
theorem CNT91.pollLoop_spec :
    (∀ (cache : Option Int) (events : List Event) (pre : List String) (r : String)
       (rest : List String),
       (∀ x ∈ pre, rstripNewline x ≠ "1") → rstripNewline r = "1" →
       CNT91.pollLoop cache events (pre ++ r :: rest) =
         (.ok (), ⟨cache, rest,
           events ++ (pre.map fun x => [Event.query "*OPC?" x, Event.sleep (1/100)]).flatten
                  ++ [Event.query "*OPC?" r]⟩))
    ∧ (∀ (cache : Option Int) (events : List Event) (replies : List String),
       (∀ x ∈ replies, rstripNewline x ≠ "1") →
       (CNT91.pollLoop cache events replies).1 = .error .blocked) := by
  constructor
  · intro cache events pre r rest hpre hr
    induction pre generalizing events with
    | nil => simp [CNT91.pollLoop, hr]
    | cons a pre ih =>
        have ha : rstripNewline a ≠ "1" := hpre a (by simp)
        have ih1 := ih (events ++ [Event.query "*OPC?" a, Event.sleep (1/100)])
          (fun x hx => hpre x (by simp [hx]))
        simp only [List.cons_append, CNT91.pollLoop, ha, if_neg, ite_false,
          List.append_eq]
        rw [ih1]
        simp
  · intro cache events replies h
    induction replies generalizing events with
    | nil => simp [CNT91.pollLoop]
    | cons a rest ih =>
        have ha : rstripNewline a ≠ "1" := h a (by simp)
        simp only [CNT91.pollLoop, ha, if_neg, ite_false]
        exact ih (events ++ [Event.query "*OPC?" a, Event.sleep (1/100)])
          (fun x hx => h x (by simp [hx]))

/-- Claim C6 witness. -/
theorem CNT91.pollLoop_spec_witness :
    CNT91.pollLoop none [] (["0\n"] ++ "1\n" :: ["x"]) =
      (.ok (), ⟨none, ["x"],
        [] ++ (["0\n"].map fun x => [Event.query "*OPC?" x, Event.sleep (1/100)]).flatten
           ++ [Event.query "*OPC?" "1\n"]⟩) ∧
    (CNT91.pollLoop none [] ["0\n", "2"]).1 = .error .blocked :=
  ⟨CNT91.pollLoop_spec.1 none [] ["0\n"] "1\n" ["x"] (by decide) (by decide),
   CNT91.pollLoop_spec.2 none [] ["0\n", "2"] (by decide)⟩

/-- Claim C1 (code bug evidence): on the concrete call
`buffer_time_series("A", 10, 100.0)` against a device that answers the
`FORM?` query with `"ASCII"`, the method raises `TypeError` when evaluating
`self.format("ASCII")` — `format` is a property, so the expression reads it
(sending `FORM?`) and then calls the returned string — and the connection log
ends there: no `:CONF:ARR:FREQ`, no `:INIT`, and no buffer fetch is ever
sent, and no value is returned. -/
theorem CNT91.bufferTimeSeries_raises_before_fetch :
    CNT91.bufferTimeSeries (fun _ => "") "A" 10 100 none ⟨none, ["ASCII\n"], []⟩ =
      (.error (.typeError "str object is not callable"),
       ⟨none, [], [.write "*CLS", .query "FORM?" "ASCII\n"]⟩) := by decide

/-- Claim C4: writing `HMP4040.sequence` with a list whose length is not a
multiple of 3, or one of whose dwell times (elements at indices 2, 5, 8, ...)
is below 0.06 or above 10, raises `ValueError` with no command written (the
instrument is untouched); for every list meeting both conditions exactly one
command is written: `ARB:DATA ` followed by the comma-joined renderings of
the values. -/
theorem HMP4040.setSequence_spec (repr : ℚ → String) (seq : List ℚ) :
    ((¬ seq.length % 3 = 0 ∨ ∃ t ∈ dwellTimes seq, t < 6/100 ∨ 10 < t) →
       (∃ msg, (HMP4040.setSequence repr seq).1 = .error (.valueError msg)) ∧
       (HMP4040.setSequence repr seq).2 = [])
    ∧ (seq.length % 3 = 0 → (∀ t ∈ dwellTimes seq, 6/100 ≤ t ∧ t ≤ 10) →
       HMP4040.setSequence repr seq =
         (.ok (), [.write ("ARB:DATA " ++ String.intercalate "," (seq.map repr))])) := by
  constructor
  · rintro (h | ⟨t, ht, hbad⟩)
    · unfold HMP4040.setSequence processSequence
      rw [if_pos h]
      exact ⟨⟨_, rfl⟩, rfl⟩
    · by_cases hl : seq.length % 3 = 0
      · have hany : ((dwellTimes seq).any fun t => decide (10 < t ∨ t < 6/100)) = true :=
          List.any_eq_true.mpr ⟨t, ht, decide_eq_true (hbad.symm.imp id id)⟩
        unfold HMP4040.setSequence processSequence
        rw [if_neg (by simpa using hl), if_pos hany]
        exact ⟨⟨_, rfl⟩, rfl⟩
      · unfold HMP4040.setSequence processSequence
        rw [if_pos hl]
        exact ⟨⟨_, rfl⟩, rfl⟩
  · intro hl hdwell
    have hany : ((dwellTimes seq).any fun t => decide (10 < t ∨ t < 6/100)) = false := by
      rw [List.any_eq_false]
      intro t ht
      have h1 := hdwell t ht
      simp only [decide_eq_true_eq]
      push_neg
      exact ⟨h1.2, h1.1⟩
    unfold HMP4040.setSequence processSequence
    rw [if_neg (by simpa using hl), if_neg (by rw [hany]; simp)]

/-- Claim C4 witness. -/
theorem HMP4040.setSequence_spec_witness :
    HMP4040.setSequence (fun _ => "x") [1, 2, 5] =
      (.ok (), [.write ("ARB:DATA " ++
        String.intercalate "," ([1, 2, 5].map (fun _ => "x")))]) :=
  (HMP4040.setSequence_spec (fun _ => "x") [1, 2, 5]).2 (by decide)
    (by
      intro t ht
      simp only [dwellTimes] at ht
      simp only [List.mem_singleton] at ht
      subst ht
      norm_num)

/-- Claim C7: writing `EditMemory.shape` with a sequence of length below 2 or
above 131073 raises `ValueError` before any data is transferred; within that
range the transfer is the command header `DATA:DATA EMEM,` followed by each
value as a fixed-width unsigned 16-bit integer in big-endian byte order (two
bytes per value; for values below 2^16 the byte pair faithfully encodes the
value). -/
theorem EditMemory.u16be_flatten_length (l : List Nat) :
    ((l.map EditMemory.u16be).flatten).length = 2 * l.length := by
  induction l with
  | nil => rfl
  | cons a t ih =>
      simp [EditMemory.u16be, ih]
      omega

theorem EditMemory.setShape_spec (shape : List Nat) :
    ((shape.length < 2 ∨ shape.length > 131073) →
       EditMemory.setShape shape =
         .error (.valueError "Length of the shape must be between 2 and 131073."))
    ∧ (2 ≤ shape.length → shape.length ≤ 131073 →
       EditMemory.setShape shape =
           .ok ("DATA:DATA EMEM,", (shape.map EditMemory.u16be).flatten)
       ∧ ((shape.map EditMemory.u16be).flatten).length = 2 * shape.length
       ∧ ∀ v ∈ shape, v < 65536 →
           EditMemory.u16be v = [v / 256, v % 256] ∧
           256 * (v / 256) + v % 256 = v ∧ v / 256 < 256 ∧ v % 256 < 256) := by
  constructor
  · intro h
    unfold EditMemory.setShape
    rw [if_pos h]
  · intro h2 h3
    have hneg : ¬ (shape.length < 2 ∨ shape.length > 131073) := by omega
    refine ⟨by unfold EditMemory.setShape; rw [if_neg hneg],
      EditMemory.u16be_flatten_length shape, ?_⟩
    · intro v hv hlt
      refine ⟨?_, by omega, by omega, by omega⟩
      unfold EditMemory.u16be
      have : v / 256 % 256 = v / 256 := Nat.mod_eq_of_lt (by omega)
      rw [this]

/-- Claim C7 witness. -/
theorem EditMemory.setShape_spec_witness :
    EditMemory.setShape [0, 65535, 258] =
      .ok ("DATA:DATA EMEM,", ([0, 65535, 258].map EditMemory.u16be).flatten) :=
  ((EditMemory.setShape_spec [0, 65535, 258]).2 (by decide) (by decide)).1

/-- Claim C8: for a channel argument in {1, 2, 3, 4} and an instrument whose
selected channel is in {1, 2, 3, 4}, `activate_channel` and
`deactivate_channel` query the selected channel, select the requested
channel, write the output-select flag, and restore the previously selected
channel with their final command, leaving the selected channel equal to its
value before the call (only the requested channel's flag changes). -/
theorem HMP4040.channel_select_restore_spec (c : Int) (s : HMP4040.HMPState)
    (hc : c = 1 ∨ c = 2 ∨ c = 3 ∨ c = 4)
    (hs : s.sel = 1 ∨ s.sel = 2 ∨ s.sel = 3 ∨ s.sel = 4) :
    HMP4040.activateChannel c s =
      (.ok (), { s with active := s.active.set (c - 1).toNat true, events := s.events ++ [.query "INST:NSEL?" (toString s.sel), .write ("INST:NSEL " ++ toString c), .write "OUTPUT:SEL 1", .write ("INST:NSEL " ++ toString s.sel)] })
    ∧ HMP4040.deactivateChannel c s =
      (.ok (), { s with active := s.active.set (c - 1).toNat false, events := s.events ++ [.query "INST:NSEL?" (toString s.sel), .write ("INST:NSEL " ++ toString c), .write "OUTPUT:SEL 0", .write ("INST:NSEL " ++ toString s.sel)] }) := by
  constructor
  · unfold HMP4040.activateChannel HMP4040.getSelectedChannel
      HMP4040.setSelectedChannel HMP4040.setSelectedChannelActive
    simp only [if_pos hc, if_pos hs]
    simp [List.append_assoc]
  · unfold HMP4040.deactivateChannel HMP4040.getSelectedChannel
      HMP4040.setSelectedChannel HMP4040.setSelectedChannelActive
    simp only [if_pos hc, if_pos hs]
    simp [List.append_assoc]

/-- Claim C8 witness. -/
theorem HMP4040.channel_select_restore_witness :
    HMP4040.activateChannel 2 ⟨3, [false, false, false, false], []⟩ =
      (.ok (), { (⟨3, [false, false, false, false], []⟩ : HMP4040.HMPState) with active := [false, false, false, false].set ((2 : Int) - 1).toNat true, events := [] ++ [.query "INST:NSEL?" (toString (3 : Int)), .write ("INST:NSEL " ++ toString (2 : Int)), .write "OUTPUT:SEL 1", .write ("INST:NSEL " ++ toString (3 : Int))] }) :=
  (HMP4040.channel_select_restore_spec 2 ⟨3, [false, false, false, false], []⟩
    (by decide) (by decide)).1

theorem EditMemory.listMax_map_sub (l : List ℚ) (c : ℚ) :
    EditMemory.listMax (l.map (fun x => x - c)) =
      (EditMemory.listMax l).map (fun m => m - c) := by
  induction l with
  | nil => rfl
  | cons a t ih =>
      simp only [List.map_cons, EditMemory.listMax, ih]
      cases EditMemory.listMax t <;> simp [max_sub_sub_right]

/-- Claim C9: on a non-empty numeric shape whose maximum strictly exceeds its
minimum, `normalize_shape` (numpy float arithmetic modelled as exact rational
arithmetic) returns an integer array of the same length with each element
`floor ((x - min) / (max - min) * 16383)` — the values are non-negative, so
`astype(int)` truncation equals the floor — sending the minimum to 0 and the
maximum to 16383; with all elements equal the divisor `max(shape - min)` is
zero and the computation divides by zero. -/
theorem EditMemory.normalizeShape_spec (shape : List ℚ) (mn mx : ℚ)
    (hmin : EditMemory.listMin shape = some mn)
    (hmax : EditMemory.listMax shape = some mx) :
    (mn < mx →
       EditMemory.normalizeShape shape =
         .ok (shape.map (fun x => Int.floor ((x - mn) / (mx - mn) * 16383)))
       ∧ (shape.map (fun x => Int.floor ((x - mn) / (mx - mn) * 16383))).length
           = shape.length
       ∧ (∀ x : ℚ, x = mn → Int.floor ((x - mn) / (mx - mn) * 16383) = 0)
       ∧ (∀ x : ℚ, x = mx → Int.floor ((x - mn) / (mx - mn) * 16383) = 16383)
       ∧ (∀ x : ℚ, mn ≤ x → 0 ≤ (x - mn) / (mx - mn) * 16383))
    ∧ (mn = mx → EditMemory.normalizeShape shape = .error .zeroDivisionError) := by
  have hrw :
      EditMemory.normalizeShape shape =
        (if mx - mn = 0 then .error .zeroDivisionError
         else .ok ((shape.map (fun x => x - mn)).map
           (fun x => Int.floor (x / (mx - mn) * 16383)))) := by
    unfold EditMemory.normalizeShape
    rw [hmin]
    dsimp only
    rw [EditMemory.listMax_map_sub, hmax]
    rfl
  constructor
  · intro hlt
    have hne : mx - mn ≠ 0 := sub_ne_zero_of_ne (ne_of_gt hlt)
    refine ⟨?_, by simp, ?_, ?_, ?_⟩
    · rw [hrw, if_neg hne, List.map_map]
      rfl
    · intro x hx
      subst hx
      simp
    · intro x hx
      subst hx
      rw [div_self hne]
      norm_num
    · intro x hx
      have h1 : 0 ≤ x - mn := by linarith
      have h2 : 0 < mx - mn := by linarith
      positivity
  · intro heq
    rw [hrw, if_pos (by rw [heq, sub_self])]

/-- Claim C9 witness. -/
theorem EditMemory.normalizeShape_spec_witness :
    EditMemory.normalizeShape [0, 1, 3] =
      .ok (([0, 1, 3] : List ℚ).map (fun x => Int.floor ((x - 0) / (3 - 0) * 16383))) :=
  ((EditMemory.normalizeShape_spec [0, 1, 3] 0 3
      (by norm_num [EditMemory.listMin])
      (by norm_num [EditMemory.listMax])).1 (by norm_num)).1

/-- Claim C10 counterexample: calling
`select_trigger(1, trigger_type="GLIT")` leaves `hold_type` at its default
`"OFF"`, yet the call raises `ValueError` (the `strict_discrete_set` check of
`hold_type` against `["PS", "PL", "P1", "P2"]` rejects `"OFF"`), contradicting
"raises ValueError exactly when the (possibly defaulted) hold_type is not
'OFF' and hold_value is falsy". -/
theorem T3DS01204.selectTrigger_glit_default_raises :
    T3DS01204.selectTrigger (fun _ => "") (.int 1) "GLIT" "OFF" none none =
      (.error (.valueError "Value is not in the discrete set"), []) := by decide

/-- Claim C10 (amended): for arguments on which the validation stage succeeds
(producing validated trigger type `tt`, formatted source `srcStr` and hold
type `ht`), `select_trigger` raises `ValueError` exactly when `ht` is not
`"OFF"` and `hold_value` is falsy, before any command is written; otherwise
the single written command is `TRSE  <tt>,SR,<srcStr>,HT,<ht>`, extended by
`,HV,<hold_value>` exactly when `ht` is not `"OFF"`, and additionally by
`,HV2,<hold_value2>` exactly when `hold_value2` is truthy. -/
theorem T3DS01204.selectTrigger_amended (repr : ℚ → String) (source : PyVal)
    (triggerType holdType : String) (hv hv2 : Option ℚ) (tt srcStr ht : String)
    (hval : T3DS01204.validateTrigger source triggerType holdType =
      .ok (tt, srcStr, ht)) :
    (¬ ht = "OFF" → truthyOptNum hv = false →
       T3DS01204.selectTrigger repr source triggerType holdType hv hv2 =
         (.error (.valueError
           "Hold_value must be specified when hold_type is not 'OFF'."), []))
    ∧ (ht = "OFF" →
       T3DS01204.selectTrigger repr source triggerType holdType hv hv2 =
         (.ok (), [.write ("TRSE  " ++ tt ++ ",SR," ++ srcStr ++ ",HT," ++ ht)]))
    ∧ (∀ q : ℚ, ¬ ht = "OFF" → hv = some q → ¬ q = 0 →
       ((hv2 = none ∨ hv2 = some 0) →
          T3DS01204.selectTrigger repr source triggerType holdType hv hv2 =
            (.ok (), [.write ("TRSE  " ++ tt ++ ",SR," ++ srcStr ++ ",HT," ++ ht
              ++ ",HV," ++ repr q)]))
       ∧ (∀ q2 : ℚ, hv2 = some q2 → ¬ q2 = 0 →
          T3DS01204.selectTrigger repr source triggerType holdType hv hv2 =
            (.ok (), [.write ("TRSE  " ++ tt ++ ",SR," ++ srcStr ++ ",HT," ++ ht
              ++ ",HV," ++ repr q ++ ",HV2," ++ repr q2)]))) := by
  unfold T3DS01204.selectTrigger
  rw [hval]
  dsimp only
  refine ⟨?_, ?_, ?_⟩
  · intro hoff hfal
    rw [if_neg hoff, if_pos hfal]
  · intro hoff
    rw [if_pos hoff]
  · intro q hoff hq hq0
    subst hq
    have htr : ¬ truthyOptNum (some q) = false := by
      simp [truthyOptNum, hq0]
    constructor
    · rintro (h2 | h2) <;> subst h2 <;>
        (rw [if_neg hoff, if_neg htr]; try simp)
    · intro q2 h2 hq20
      subst h2
      rw [if_neg hoff, if_neg htr]
      simp [hq20]

/-- Claim C10 witness (for the amended statement). -/
theorem T3DS01204.selectTrigger_amended_witness :
    T3DS01204.selectTrigger (fun _ => "2") (.int 1) "EDGE" "TI" (some 2) none =
      (.ok (), [.write ("TRSE  " ++ "EDGE" ++ ",SR," ++ "C1" ++ ",HT," ++ "TI"
        ++ ",HV," ++ (fun _ => "2") (2 : ℚ))]) :=
  (((T3DS01204.selectTrigger_amended (fun _ => "2") (.int 1) "EDGE" "TI"
      (some 2) none "EDGE" "C1" "TI" (by decide)).2.2 2 (by decide) rfl
      (by norm_num)).1 (Or.inl rfl))

end Pymeasure
